import Mathlib

/-!
Shallow embedding of the MagiskSU client: the command-line parsing, the
daemon wire protocol, the pseudo-terminal negotiation and the signal-safe
teardown of su_client_main, together with the signal handler sighandler and
its installer setup_sighandlers. Pure option processing is embedded as Lean
functions over the argv token list; the effectful protocol section of
su_client_main is embedded as a function from the environment's responses
(acknowledgment integer, the three is-a-tty answers, the final status) to
the ordered list of observable operations it performs plus the value it
returns.
-/

set_option linter.unusedVariables false

/-- Modelled from the spec: the default shell is a compile-time constant
(DEFAULT_SHELL, declared in magisk.hpp which is not under src/); its concrete
value is irrelevant to every claim below. -/
def DEFAULT_SHELL : String := "/system/bin/sh"

/-- The request record built by the option parser: the fields of su_request /
su_req_base (declared in su.hpp, not under src/; the field list follows the
spec's data model). A uid of none stands for the daemon-defined default that
the client leaves untouched when no positional user token is present. -/
structure SuRequest where
  uid : Option Int := none
  login : Bool := false
  keepenv : Bool := false
  mount_master : Bool := false
  shell : String := DEFAULT_SHELL
  command : String := ""
deriving Repr, DecidableEq

/-- Outcome of command-line processing in su_client_main: a completed request
with the positional tokens left after option scanning, or one of the early
exits (help and the two version prints exit successfully; a usage error exits
with status 2 before any daemon contact). -/
inductive ParseExit where
  | ok (req : SuRequest) (positionals : List String)
  | help
  | version
  | versionCode
  | usageError
deriving Repr, DecidableEq

/-- A required-argument option whose argument will be taken from the next
argv token (the getopt state carried between tokens): c is command, s is
shell, z is the legacy context option. -/
inductive POpt where
  | optC
  | optS
  | optZ
deriving Repr, DecidableEq

/-- The join loop of the -c case (lines 360 to 364): append each token to the
command, inserting a space separator only when the accumulated command is
nonempty. -/
def joinTokens (init : String) (toks : List String) : String :=
  toks.foldl (fun acc t => (if acc.isEmpty then acc else acc ++ " ") ++ t) init

/-- Result of processing one argv token in the option loop: either continue
with an updated request (and possibly a pending required-argument option), or
the loop is over with a final outcome. -/
inductive StepRes where
  | cont (req : SuRequest) (pend : Option POpt)
  | stop (res : ParseExit)
deriving Repr, DecidableEq

/-- Short-option cluster processing for the optstring "c:hlmps:Vvuz:M" and
the switch of lines 358 to 396. The letter u is in the optstring but has no
case in the switch, so it reaches the default usage(2) exit, and a letter not
in the optstring makes getopt report an error, reaching the same exit; both
are the usageError outcome. fullTok is the complete argv token being
scanned: the -c case joins the command from argv at index optind - 1, which
is this very token whenever the argument was attached to it, and the
following token otherwise. For required-argument letters with an empty
cluster remainder, the argument is the next argv token (a pending POpt). -/
def shortChars (fullTok : String) (rest : List String) :
    SuRequest → List Char → StepRes
  | req, [] => .cont req none
  | req, c :: more =>
    if c = 'h' then .stop .help
    else if c = 'l' then shortChars fullTok rest { req with login := true } more
    else if c = 'm' then shortChars fullTok rest { req with keepenv := true } more
    else if c = 'p' then shortChars fullTok rest { req with keepenv := true } more
    else if c = 'V' then .stop .versionCode
    else if c = 'v' then .stop .version
    else if c = 'M' then shortChars fullTok rest { req with mount_master := true } more
    else if c = 'c' then
      if more.isEmpty then .cont req (some .optC)
      else .stop (.ok { req with command := joinTokens req.command (fullTok :: rest) } [])
    else if c = 's' then
      if more.isEmpty then .cont req (some .optS)
      else .cont { req with shell := String.mk more } none
    else if c = 'z' then
      if more.isEmpty then .cont req (some .optZ)
      else .cont req none
    else .stop .usageError

/-- Split the body of a long option at the first equals sign (getopt_long's
separation of name and attached argument). -/
def splitEqAux (acc : List Char) : List Char → List Char × Option (List Char)
  | [] => (acc.reverse, none)
  | c :: cs => if c = '=' then (acc.reverse, some cs) else splitEqAux (c :: acc) cs

/-- Long-option body split into the option name and an optional attached
argument. -/
def splitEq (s : String) : String × Option String :=
  let p := splitEqAux [] s.toList
  (String.mk p.1, p.2.map String.mk)

/-- The long-option table of lines 335 to 345, processed as getopt_long does:
exact-name matching (the unambiguous-abbreviation feature of getopt_long is
not modelled; no claim exercises it). A no-argument long option given an
attached argument is a getopt error, reaching the usage(2) exit. For the
command option with an attached argument, argv at optind - 1 is the whole
token, so the command join starts at that token. -/
def longStep (req : SuRequest) (tok : String) (rest : List String) : StepRes :=
  let p := splitEq (tok.drop 2)
  if p.1 = "command" then
    match p.2 with
    | some _ => .stop (.ok { req with command := joinTokens req.command (tok :: rest) } [])
    | none => .cont req (some .optC)
  else if p.1 = "help" then
    match p.2 with
    | some _ => .stop .usageError
    | none => .stop .help
  else if p.1 = "login" then
    match p.2 with
    | some _ => .stop .usageError
    | none => .cont { req with login := true } none
  else if p.1 = "preserve-environment" then
    match p.2 with
    | some _ => .stop .usageError
    | none => .cont { req with keepenv := true } none
  else if p.1 = "shell" then
    match p.2 with
    | some v => .cont { req with shell := v } none
    | none => .cont req (some .optS)
  else if p.1 = "version" then
    match p.2 with
    | some _ => .stop .usageError
    | none => .stop .version
  else if p.1 = "context" then
    match p.2 with
    | some _ => .cont req none
    | none => .cont req (some .optZ)
  else if p.1 = "mount-master" then
    match p.2 with
    | some _ => .stop .usageError
    | none => .cont { req with mount_master := true } none
  else .stop .usageError

/-- The getopt_long loop of lines 357 to 397 over the argv tokens after
argv[0]. pend carries a required-argument option whose argument comes from
the next token; since the optstring does not begin with a colon, a missing
required argument is a getopt error reaching the usage(2) exit. Token
classification follows getopt: a literal "--" ends option scanning, a lone
"-" and any token not starting with a dash are non-options and end the loop
(getopt's argument permutation is not modelled: the loop stops at the first
non-option; no claim depends on permutation), "--x..." is a long option and
"-x..." a short cluster. The -c and --command cases set optind to argc, so
they return a final result with no remaining positionals and no further
scanning. -/
def gloop : SuRequest → Option POpt → List String → ParseExit
  | req, some .optC, [] => .usageError
  | req, some .optC, a :: rest =>
    .ok { req with command := joinTokens req.command (a :: rest) } []
  | req, some .optS, [] => .usageError
  | req, some .optS, a :: rest => gloop { req with shell := a } none rest
  | req, some .optZ, [] => .usageError
  | req, some .optZ, _ :: rest => gloop req none rest
  | req, none, [] => .ok req []
  | req, none, tok :: rest =>
    if tok = "--" then .ok req rest
    else
      match tok.toList with
      | '-' :: '-' :: _ =>
        match longStep req tok rest with
        | .stop r => r
        | .cont req2 pend => gloop req2 pend rest
      | '-' :: c :: cs =>
        match shortChars tok rest req (c :: cs) with
        | .stop r => r
        | .cont req2 pend => gloop req2 pend rest
      | _ => .ok req (tok :: rest)
termination_by structural _ _ l => l

/-- The normalization pre-pass of lines 349 to 355: every argv element equal
to "-cn" is rewritten in place to "-z" and every "-mm" to "-M", before
getopt_long runs. -/
def normTok (s : String) : String :=
  if s = "-cn" then "-z" else if s = "-mm" then "-M" else s

/-- Option scanning followed by the positional handling of lines 399 to 412,
on an already-normalized argv (getopt skips argv[0]): a leading lone "-"
positional sets the login flag and is consumed; the next positional, if any,
is resolved to a uid, by username lookup first and integer parsing on lookup
failure. lookupUser models getpwnam and parseInt models parse_int, both
outside src/. -/
def suParseCore (lookupUser : String → Option Int) (parseInt : String → Int)
    (norm : List String) : ParseExit :=
  match gloop {} none (norm.drop 1) with
  | .ok req pos =>
    match pos with
    | [] => .ok req []
    | p :: ps =>
      if p = "-" then
        match ps with
        | [] => .ok { req with login := true } []
        | u :: us =>
          .ok { req with login := true, uid := some ((lookupUser u).getD (parseInt u)) } us
      else
        .ok { req with uid := some ((lookupUser p).getD (parseInt p)) } ps
  | r => r

/-- Full request construction of su_client_main: the normalization pre-pass
over every argv element, then option scanning and positional handling. -/
def suClientParse (lookupUser : String → Option Int) (parseInt : String → Int)
    (argv : List String) : ParseExit :=
  suParseCore lookupUser parseInt (argv.map normTok)

/-- Errno value EACCES (access denied), the status returned at line 428 on a
daemon denial. -/
def EACCES : Int := 13

/-- Modelled from the spec: the three AttyMask bit constants ATTY_IN,
ATTY_OUT and ATTY_ERR are declared in su.hpp, which is not under src/; the
spec's AttyMask is a record of three independent bits, so they are three
distinct bits of the atty integer. -/
def ATTY_IN : Nat := 1

/-- Second AttyMask bit (see ATTY_IN). -/
def ATTY_OUT : Nat := 2

/-- Third AttyMask bit (see ATTY_IN). -/
def ATTY_ERR : Nat := 4

/-- The atty bitmask computation of lines 432 to 435: one bit per standard
stream that isatty reports as a terminal. -/
def attyMask (i o e : Bool) : Nat :=
  ((if i then ATTY_IN else 0) ||| (if o then ATTY_OUT else 0)) |||
    (if e then ATTY_ERR else 0)

/-- Observable operations of su_client_main after parsing (lines 414 to 463),
at the granularity of the wire protocol and the pump phase. writeReq is the
xwrite of the fixed-layout su_req_base fields; writeStr is write_string, the
length-prefixed string write (its framing lives outside src/ and follows the
spec); errDenied is the strerror(EACCES) line printed to standard error on
denial; sendFd carries the descriptor argument of send_fd, with -1 standing
for the no-descriptor sentinel; pumpStdin stands for starting the
asynchronous input pump (pump_stdin_async, inside which raw mode is entered);
pumpStdout stands for the blocking output pump run to end-of-stream on the
pseudo-terminal master; watchWinch for starting the resize watcher; setupSig
for installing the custom handler on the quit-signal set. -/
inductive Ev where
  | connect
  | writeReq (req : SuRequest)
  | writeStr (s : String)
  | readInt (v : Int)
  | errDenied
  | sendFd (fd : Int)
  | writeInt (v : Int)
  | recvFd
  | setupSig
  | watchWinch
  | pumpStdin
  | pumpStdout
  | closeFd
deriving Repr, DecidableEq

/-- The environment's side of one invocation: the daemon's acknowledgment
integer, the three isatty answers, and the final status integer read at line
460. -/
structure DaemonEnv where
  ack : Int
  attyIn : Bool
  attyOut : Bool
  attyErr : Bool
  exitCode : Int
deriving Repr, DecidableEq

/-- The protocol section of su_client_main (lines 414 to 463) as a function
from the environment's responses to the ordered list of operations performed
and the returned status: connect, send the fixed-layout request then the two
length-prefixed strings, read the acknowledgment; on a nonzero acknowledgment
print the access-denied message and return EACCES at once (note: without
closing the channel); otherwise compute the atty mask, transfer the three
streams in order (sentinel -1 for a terminal stream, the real descriptor 0,
1 or 2 otherwise), send the pseudo-terminal flag and receive the master when
the flag is 1, run the pump phase when a terminal is involved, then read the
final status and close the channel. -/
def clientRun (req : SuRequest) (env : DaemonEnv) : List Ev × Int :=
  let pre : List Ev :=
    [Ev.connect, Ev.writeReq req, Ev.writeStr req.shell, Ev.writeStr req.command,
     Ev.readInt env.ack]
  if env.ack ≠ 0 then
    (pre ++ [Ev.errDenied], EACCES)
  else
    let atty : Nat := attyMask env.attyIn env.attyOut env.attyErr
    let sends : List Ev :=
      [Ev.sendFd (if atty &&& ATTY_IN ≠ 0 then -1 else 0),
       Ev.sendFd (if atty &&& ATTY_OUT ≠ 0 then -1 else 1),
       Ev.sendFd (if atty &&& ATTY_ERR ≠ 0 then -1 else 2)]
    let ptyNeg : List Ev :=
      if atty ≠ 0 then [Ev.writeInt 1, Ev.recvFd] else [Ev.writeInt 0]
    let pumps : List Ev :=
      if atty ≠ 0 then [Ev.setupSig, Ev.watchWinch, Ev.pumpStdin, Ev.pumpStdout]
      else []
    (pre ++ sends ++ ptyNeg ++ pumps ++ [Ev.readInt env.exitCode, Ev.closeFd],
     env.exitCode)

/-- The operation list of one invocation. -/
def clientTrace (req : SuRequest) (env : DaemonEnv) : List Ev :=
  (clientRun req env).1

/-- The status returned by one invocation. -/
def clientExit (req : SuRequest) (env : DaemonEnv) : Int :=
  (clientRun req env).2

/-- Recognizer for descriptor-transfer operations. -/
def Ev.isSendFd : Ev → Bool
  | .sendFd _ => true
  | _ => false

/-- Recognizer for descriptor-receive operations. -/
def Ev.isRecvFd : Ev → Bool
  | .recvFd => true
  | _ => false

/-- Recognizer for integer-flag writes. -/
def Ev.isWriteInt : Ev → Bool
  | .writeInt _ => true
  | _ => false

/-- Recognizer for the two byte pumps. -/
def Ev.isPump : Ev → Bool
  | .pumpStdin => true
  | .pumpStdout => true
  | _ => false

/-- Recognizer for the channel close. -/
def Ev.isClose : Ev → Bool
  | .closeFd => true
  | _ => false

/-- Recognizer for the access-denied report. -/
def Ev.isErrDenied : Ev → Bool
  | .errDenied => true
  | _ => false

/-- Recognizer for the input-pump start. -/
def Ev.isStdinPump : Ev → Bool
  | .pumpStdin => true
  | _ => false

/-- Recognizer for the signal-handler installation. -/
def Ev.isSetupSig : Ev → Bool
  | .setupSig => true
  | _ => false

/-- Recognizer for the resize-watcher start. -/
def Ev.isWatchWinch : Ev → Bool
  | .watchWinch => true
  | _ => false

/-- Modelled from the spec: raw mode is entered inside pump_stdin_async
(pts.cpp, not under src/), so an invocation switches the terminal to raw mode
exactly when it starts the input pump. -/
def entersRawMode (t : List Ev) : Bool := t.any Ev.isStdinPump

/-- The quit_signals array of line 255 without its 0 terminator, as Linux
signal numbers: SIGALRM, SIGABRT, SIGHUP, SIGPIPE, SIGQUIT, SIGTERM, SIGINT. -/
def quitSignals : List Nat := [14, 6, 1, 13, 3, 15, 2]

/-- Actions of the signal-handling code: restore_stdin reinstates the
terminal configuration saved before raw mode (its implementation is in
pts.cpp, outside src/); closeStd n closes standard descriptor n;
setDefaultDisposition reinstalls SIG_DFL for a signal; installHandler
registers the custom handler for a signal. -/
inductive SigAct where
  | restoreStdin
  | closeStd (fd : Nat)
  | setDefaultDisposition (sig : Nat)
  | installHandler (sig : Nat)
deriving Repr, DecidableEq

/-- Recognizer for handler-installation actions. -/
def SigAct.isInstall : SigAct → Bool
  | .installHandler _ => true
  | _ => false

/-- Recognizer for descriptor-close actions. -/
def SigAct.isCloseAct : SigAct → Bool
  | .closeStd _ => true
  | _ => false

/-- The action sequence of sighandler (lines 277 to 298): restore the
terminal, close stdin, stdout and stderr, then reinstall the default
disposition for every signal of quit_signals, in array order. -/
def sighandlerActs : List SigAct :=
  [SigAct.restoreStdin, SigAct.closeStd 0, SigAct.closeStd 1, SigAct.closeStd 2]
    ++ quitSignals.map SigAct.setDefaultDisposition

/-- The action sequence of setup_sighandlers (lines 300 to 307): register the
given handler for every signal of quit_signals. -/
def setupSighandlersActs : List SigAct :=
  quitSignals.map SigAct.installHandler

/-- Outcome of the final status read, as the environment presents it: either
the daemon delivered an integer, or the channel closed or errored first. -/
inductive FinalRead where
  | value (v : Int)
  | failed
deriving Repr, DecidableEq

/-- The two distinct outcomes of result collection: the remote command's
status propagated as the client's own status, or the fatal communication
error (message to standard error, its own nonzero status). -/
inductive CollectOutcome where
  | remote (v : Int)
  | commError
deriving Repr, DecidableEq

/-- Modelled from the spec: read_int, the socket utility performing the final
status read at line 460, is not under src/ (only its caller is). The spec's
CommunicationError taxonomy entry states that a failed final read is a
distinct fatal communication error with a message to standard error and its
own nonzero status, never conflated with a legitimately nonzero remote
status; a successful read hands the integer to the caller, which returns it
unchanged. -/
def readFinalStatus : FinalRead → CollectOutcome
  | .value v => .remote v
  | .failed => .commError

/-- A denial environment: the daemon acknowledges with 1; no stream is a
terminal. -/
def envDeny : DaemonEnv := ⟨1, false, false, false, 0⟩

/-- An authorized, fully redirected invocation: zero acknowledgment, no
stream is a terminal, remote status 5. -/
def envPlain : DaemonEnv := ⟨0, false, false, false, 5⟩

/-- An authorized interactive invocation: zero acknowledgment, stdin is a
terminal, remote status 9. -/
def envTty : DaemonEnv := ⟨0, true, false, false, 9⟩

/-- C2: once -c (or --command) is matched with its argument in the following
token, every remaining token (starting with the token carrying the argument)
is joined with single spaces, verbatim, into the command field, and option
scanning stops at once: the parse result is final with empty positionals, so
no token after -c is ever reinterpreted as another flag; in particular
"su -c a b" yields command "a b". -/
theorem c2_dash_c_joins_rest (req : SuRequest) (a : String) (rest : List String)
    (lu : String → Option Int) (pInt : String → Int) :
    gloop req none ("-c" :: a :: rest)
      = ParseExit.ok { req with command := joinTokens req.command (a :: rest) } []
    ∧ gloop req none ("--command" :: a :: rest)
      = ParseExit.ok { req with command := joinTokens req.command (a :: rest) } []
    ∧ suClientParse lu pInt ["su", "-c", "a", "b"]
      = ParseExit.ok { command := "a b" } [] :=
  ⟨rfl, rfl, rfl⟩

/-- C9 counterexample: the legacy spelling "-cn" is not a no-op accepted
without error: it is rewritten to "-z", a required-argument option, so a
trailing "-cn" with no following token makes getopt report a missing
argument and the client exits with the usage error, unlike the empty
invocation it should be equivalent to under the claim. -/
theorem c9_trailing_cn_usage_error :
    suClientParse (fun _ => none) (fun _ => 0) ["su", "-cn"] = ParseExit.usageError
    ∧ suClientParse (fun _ => none) (fun _ => 0) ["su"] = ParseExit.ok {} [] :=
  ⟨by decide, by decide⟩

/-- C9 amended: "-mm" behaves exactly as its canonical replacement "-M" in
any argv position (the normalization pass makes the two argv lists equal
before parsing); "-cn" is rewritten to "-z", the legacy context option,
which requires an argument: followed by a token it is accepted without error,
consumes that token and changes no request field, but as the final token it
is a usage error (shown by the counterexample). -/
theorem c9_alias_equivalence (lu : String → Option Int) (pInt : String → Int)
    (pre post : List String) (req : SuRequest) (t : String) (rest : List String) :
    suClientParse lu pInt (pre ++ "-mm" :: post)
      = suClientParse lu pInt (pre ++ "-M" :: post)
    ∧ gloop req none ("-z" :: t :: rest) = gloop req none rest
    ∧ suClientParse lu pInt ["su", "-cn", "x"] = suClientParse lu pInt ["su"] := by
  refine ⟨?_, rfl, rfl⟩
  unfold suClientParse
  have h : (pre ++ "-mm" :: post).map normTok = (pre ++ "-M" :: post).map normTok := by
    simp [normTok]
  rw [h]

/-- C8: the signal handler performs, in order, the terminal restore, the
force-close of descriptors 0, 1 and 2, then the reinstallation of the
default disposition for every signal of the quit set in array order; it
contains no handler-installation action (cleanup only, the fatal default is
left to run), and setup_sighandlers registers the custom handler for exactly
the quit-signal set. -/
theorem c8_sighandler_cleanup_order :
    sighandlerActs
      = [SigAct.restoreStdin, SigAct.closeStd 0, SigAct.closeStd 1, SigAct.closeStd 2,
         SigAct.setDefaultDisposition 14, SigAct.setDefaultDisposition 6,
         SigAct.setDefaultDisposition 1, SigAct.setDefaultDisposition 13,
         SigAct.setDefaultDisposition 3, SigAct.setDefaultDisposition 15,
         SigAct.setDefaultDisposition 2]
    ∧ (∀ s ∈ quitSignals, SigAct.setDefaultDisposition s ∈ sighandlerActs)
    ∧ sighandlerActs.all (fun a => !a.isInstall) = true
    ∧ setupSighandlersActs = quitSignals.map SigAct.installHandler :=
  ⟨rfl, by decide, rfl, rfl⟩

/-- C7 (spec-modelled, read_int is outside src/): a successful final read
propagates the remote status unchanged, a failed final read is the distinct
communication-error outcome, and that outcome differs from every remote
status, nonzero ones included. -/
theorem c7_comm_error_distinct (v : Int) :
    readFinalStatus (FinalRead.value v) = CollectOutcome.remote v
    ∧ readFinalStatus FinalRead.failed = CollectOutcome.commError
    ∧ CollectOutcome.commError ≠ CollectOutcome.remote v :=
  ⟨rfl, rfl, fun h => nomatch h⟩

/-- Computation lemma: the full operation list of an authorized invocation
(zero acknowledgment), one equation covering the eight atty combinations. -/
theorem clientTrace_accepted (req : SuRequest) (ai ao ae : Bool) (code : Int) :
    clientTrace req ⟨0, ai, ao, ae, code⟩
      = [Ev.connect, Ev.writeReq req, Ev.writeStr req.shell, Ev.writeStr req.command,
         Ev.readInt 0,
         Ev.sendFd (if ai then -1 else 0),
         Ev.sendFd (if ao then -1 else 1),
         Ev.sendFd (if ae then -1 else 2)]
        ++ (if ai || ao || ae then [Ev.writeInt 1, Ev.recvFd] else [Ev.writeInt 0])
        ++ (if ai || ao || ae then
              [Ev.setupSig, Ev.watchWinch, Ev.pumpStdin, Ev.pumpStdout] else [])
        ++ [Ev.readInt code, Ev.closeFd] := by
  cases ai <;> cases ao <;> cases ae <;>
    simp [clientTrace, clientRun, attyMask, ATTY_IN, ATTY_OUT, ATTY_ERR] <;> decide

/-- Computation lemma: the operation list and returned status of a denied
invocation. -/
theorem clientRun_denied (req : SuRequest) (env : DaemonEnv) (h : env.ack ≠ 0) :
    clientTrace req env
      = [Ev.connect, Ev.writeReq req, Ev.writeStr req.shell, Ev.writeStr req.command,
         Ev.readInt env.ack, Ev.errDenied]
    ∧ clientExit req env = EACCES := by
  constructor <;> simp [clientTrace, clientExit, clientRun, h]

/-- C1: when the acknowledgment is nonzero, the first five operations are
still only the connect, the request write, the two string writes and the
acknowledgment read; the whole trace contains zero descriptor transfers, the
access-denied message is printed, and the invocation returns EACCES. -/
theorem c1_deny_no_fd_transfer (req : SuRequest) (env : DaemonEnv)
    (h : env.ack ≠ 0) :
    (clientTrace req env).take 5
      = [Ev.connect, Ev.writeReq req, Ev.writeStr req.shell,
         Ev.writeStr req.command, Ev.readInt env.ack]
    ∧ (clientTrace req env).filter Ev.isSendFd = []
    ∧ (clientTrace req env).any Ev.isErrDenied = true
    ∧ clientExit req env = EACCES := by
  obtain ⟨ht, he⟩ := clientRun_denied req env h
  rw [ht]
  exact ⟨rfl, rfl, rfl, he⟩

/-- C1 witness: the theorem applied to the default request and the denial
environment. -/
theorem c1_deny_no_fd_transfer_witness :
    envDeny.ack ≠ 0
    ∧ (clientTrace {} envDeny).filter Ev.isSendFd = []
    ∧ clientExit {} envDeny = EACCES :=
  ⟨by decide, (c1_deny_no_fd_transfer {} envDeny (by decide)).2.1,
   (c1_deny_no_fd_transfer {} envDeny (by decide)).2.2.2⟩

/-- C3: on a zero acknowledgment, the descriptor transfers are exactly three,
in the fixed order stdin, stdout, stderr, each the sentinel -1 when the
matching AttyMask bit is set and the real descriptor otherwise; they are
followed by exactly one integer flag, 1 exactly when some bit is set; and
exactly one descriptor is received back when the flag is 1, none when it is
0, immediately after the flag. -/
theorem c3_relay_fixed_shape (req : SuRequest) (env : DaemonEnv)
    (h : env.ack = 0) :
    (clientTrace req env).filter Ev.isSendFd
      = [Ev.sendFd (if env.attyIn then -1 else 0),
         Ev.sendFd (if env.attyOut then -1 else 1),
         Ev.sendFd (if env.attyErr then -1 else 2)]
    ∧ (clientTrace req env).filter Ev.isWriteInt
      = [Ev.writeInt (if env.attyIn || env.attyOut || env.attyErr then 1 else 0)]
    ∧ ((clientTrace req env).filter Ev.isRecvFd).length
      = (if env.attyIn || env.attyOut || env.attyErr then 1 else 0)
    ∧ (clientTrace req env).take 10
      = [Ev.connect, Ev.writeReq req, Ev.writeStr req.shell, Ev.writeStr req.command,
         Ev.readInt 0,
         Ev.sendFd (if env.attyIn then -1 else 0),
         Ev.sendFd (if env.attyOut then -1 else 1),
         Ev.sendFd (if env.attyErr then -1 else 2),
         Ev.writeInt (if env.attyIn || env.attyOut || env.attyErr then 1 else 0)]
        ++ (if env.attyIn || env.attyOut || env.attyErr
            then [Ev.recvFd] else [Ev.readInt env.exitCode]) := by
  obtain ⟨ack, ai, ao, ae, code⟩ := env
  obtain rfl : ack = 0 := h
  rw [clientTrace_accepted]
  refine ⟨?_, ?_, ?_, ?_⟩ <;> cases ai <;> cases ao <;> cases ae <;> rfl

/-- C3 witness: the theorem applied to the default request and the
all-redirected authorized environment: three real transfers, flag 0, no
receive. -/
theorem c3_relay_fixed_shape_witness :
    envPlain.ack = 0
    ∧ (clientTrace {} envPlain).filter Ev.isSendFd
        = [Ev.sendFd 0, Ev.sendFd 1, Ev.sendFd 2]
    ∧ ((clientTrace {} envPlain).filter Ev.isRecvFd).length = 0 :=
  ⟨rfl, (c3_relay_fixed_shape {} envPlain rfl).1,
   (c3_relay_fixed_shape {} envPlain rfl).2.2.1⟩

/-- C4: every invocation that reaches the daemon starts with, in this exact
order, the connect, the fixed-layout request fields, the length-prefixed
shell string, the length-prefixed command string, then one integer
acknowledgment read; a nonzero acknowledgment ends the exchange (only the
denial report follows), a zero acknowledgment proceeds directly to the
descriptor transfers. -/
theorem c4_wire_protocol_order (req : SuRequest) (env : DaemonEnv) :
    (clientTrace req env).take 5
      = [Ev.connect, Ev.writeReq req, Ev.writeStr req.shell, Ev.writeStr req.command,
         Ev.readInt env.ack]
    ∧ (env.ack ≠ 0 → clientTrace req env
        = [Ev.connect, Ev.writeReq req, Ev.writeStr req.shell, Ev.writeStr req.command,
           Ev.readInt env.ack, Ev.errDenied])
    ∧ (env.ack = 0 → (clientTrace req env).take 6
        = [Ev.connect, Ev.writeReq req, Ev.writeStr req.shell, Ev.writeStr req.command,
           Ev.readInt 0, Ev.sendFd (if env.attyIn then -1 else 0)]) := by
  by_cases h : env.ack = 0
  · obtain ⟨ack, ai, ao, ae, code⟩ := env
    obtain rfl : ack = 0 := h
    refine ⟨?_, fun hne => absurd rfl hne, fun _ => ?_⟩ <;>
      (rw [clientTrace_accepted]; cases ai <;> cases ao <;> cases ae <;> rfl)
  · obtain ⟨ht, _⟩ := clientRun_denied req env h
    rw [ht]
    exact ⟨rfl, fun _ => rfl, fun hz => absurd hz h⟩

/-- C4 witness: the theorem applied to the default request and the
all-redirected authorized environment. -/
theorem c4_wire_protocol_order_witness :
    (clientTrace {} envPlain).take 5
      = [Ev.connect, Ev.writeReq {}, Ev.writeStr DEFAULT_SHELL, Ev.writeStr "",
         Ev.readInt 0]
    ∧ (clientTrace {} envPlain).take 6
      = [Ev.connect, Ev.writeReq {}, Ev.writeStr DEFAULT_SHELL, Ev.writeStr "",
         Ev.readInt 0, Ev.sendFd 0] :=
  ⟨(c4_wire_protocol_order {} envPlain).1,
   (c4_wire_protocol_order {} envPlain).2.2 rfl⟩

/-- C5: when a pseudo-terminal is negotiated (zero acknowledgment, some
AttyMask bit set), the trace is the complete handshake (connect, request,
strings, acknowledgment, three transfers, flag 1, master receive) followed
by the pump phase, and the final status read comes only after the blocking
output pump has returned at end-of-stream, with the close after it: no pump
operation occurs inside the handshake part, and the status read is strictly
after the output pump. -/
theorem c5_pumps_after_handshake (req : SuRequest) (env : DaemonEnv)
    (hack : env.ack = 0)
    (hatty : (env.attyIn || env.attyOut || env.attyErr) = true) :
    ∃ hs, clientTrace req env
        = hs ++ [Ev.setupSig, Ev.watchWinch, Ev.pumpStdin, Ev.pumpStdout,
                 Ev.readInt env.exitCode, Ev.closeFd]
      ∧ hs = [Ev.connect, Ev.writeReq req, Ev.writeStr req.shell,
              Ev.writeStr req.command, Ev.readInt 0,
              Ev.sendFd (if env.attyIn then -1 else 0),
              Ev.sendFd (if env.attyOut then -1 else 1),
              Ev.sendFd (if env.attyErr then -1 else 2),
              Ev.writeInt 1, Ev.recvFd]
      ∧ hs.all (fun e => !e.isPump) = true := by
  obtain ⟨ack, ai, ao, ae, code⟩ := env
  obtain rfl : ack = 0 := hack
  refine ⟨_, ?_, rfl, ?_⟩ <;>
    cases ai <;> cases ao <;> cases ae <;> first
      | (exfalso; revert hatty; simp; done)
      | (rw [clientTrace_accepted]; rfl)
      | rfl

/-- C5 witness: the theorem applied to the default request and the
interactive authorized environment. -/
theorem c5_pumps_after_handshake_witness :
    envTty.ack = 0
    ∧ (envTty.attyIn || envTty.attyOut || envTty.attyErr) = true
    ∧ ∃ hs, clientTrace {} envTty
        = hs ++ [Ev.setupSig, Ev.watchWinch, Ev.pumpStdin, Ev.pumpStdout,
                 Ev.readInt 9, Ev.closeFd]
      ∧ hs = [Ev.connect, Ev.writeReq {}, Ev.writeStr DEFAULT_SHELL, Ev.writeStr "",
              Ev.readInt 0, Ev.sendFd (-1), Ev.sendFd 1, Ev.sendFd 2,
              Ev.writeInt 1, Ev.recvFd]
      ∧ hs.all (fun e => !e.isPump) = true :=
  ⟨rfl, rfl, c5_pumps_after_handshake {} envTty rfl rfl⟩

/-- C6 counterexample: on the denial exit path the code returns EACCES
without closing the channel descriptor: the trace of a denied invocation
contains zero close operations, not exactly one. -/
theorem c6_denied_invocation_never_closes :
    ((clientTrace {} envDeny).filter Ev.isClose).length = 0
    ∧ ((clientTrace {} envDeny).filter Ev.isClose).length ≠ 1 :=
  ⟨by decide, by decide⟩

/-- C6 amended: the channel descriptor is explicitly closed exactly once on
the normal-completion path; on daemon denial the client returns without an
explicit close (the descriptor is released only by process termination), and
the signal handler closes only the three standard descriptors, never the
channel. -/
theorem c6_close_once_normal_path_only (req : SuRequest) (env : DaemonEnv) :
    (env.ack = 0 → ((clientTrace req env).filter Ev.isClose).length = 1)
    ∧ (env.ack ≠ 0 → ((clientTrace req env).filter Ev.isClose).length = 0)
    ∧ sighandlerActs.filter SigAct.isCloseAct
        = [SigAct.closeStd 0, SigAct.closeStd 1, SigAct.closeStd 2] := by
  obtain ⟨ack, ai, ao, ae, code⟩ := env
  by_cases h : ack = 0
  · obtain rfl : ack = 0 := h
    refine ⟨fun _ => ?_, fun hne => absurd rfl hne, rfl⟩
    rw [clientTrace_accepted]
    cases ai <;> cases ao <;> cases ae <;> rfl
  · obtain ⟨ht, _⟩ := clientRun_denied req ⟨ack, ai, ao, ae, code⟩ h
    exact ⟨fun hz => absurd hz h, fun _ => by rw [ht]; rfl, rfl⟩

/-- C6 witness: the amended theorem applied to the default request and the
two concrete environments: one close on the authorized path, none on the
denied path. -/
theorem c6_close_once_witness :
    ((clientTrace {} envPlain).filter Ev.isClose).length = 1
    ∧ ((clientTrace {} envDeny).filter Ev.isClose).length = 0 :=
  ⟨(c6_close_once_normal_path_only {} envPlain).1 rfl,
   (c6_close_once_normal_path_only {} envDeny).2.1 (by decide)⟩

/-- C10: when no standard stream is a terminal, the invocation neither
installs the custom handler for the quit-signal set, nor starts the resize
watcher, nor runs any pump, nor enters raw mode (raw mode lives inside the
input pump): signal dispositions and terminal configuration are left
untouched for the whole invocation, whichever acknowledgment the daemon
gives. -/
theorem c10_no_tty_frame (req : SuRequest) (env : DaemonEnv)
    (hi : env.attyIn = false) (ho : env.attyOut = false) (he : env.attyErr = false) :
    (clientTrace req env).all (fun e => !e.isSetupSig) = true
    ∧ (clientTrace req env).all (fun e => !e.isPump) = true
    ∧ (clientTrace req env).all (fun e => !e.isWatchWinch) = true
    ∧ entersRawMode (clientTrace req env) = false := by
  obtain ⟨ack, ai, ao, ae, code⟩ := env
  obtain rfl : ai = false := hi
  obtain rfl : ao = false := ho
  obtain rfl : ae = false := he
  by_cases h : ack = 0
  · obtain rfl : ack = 0 := h
    rw [entersRawMode, clientTrace_accepted]
    exact ⟨by rfl, by rfl, by rfl, by rfl⟩
  · obtain ⟨ht, _⟩ := clientRun_denied req ⟨ack, false, false, false, code⟩ h
    rw [entersRawMode, ht]
    exact ⟨by rfl, by rfl, by rfl, by rfl⟩

/-- C10 witness: the theorem applied to the default request and the
all-redirected authorized environment. -/
theorem c10_no_tty_frame_witness :
    envPlain.attyIn = false ∧ envPlain.attyOut = false ∧ envPlain.attyErr = false
    ∧ entersRawMode (clientTrace {} envPlain) = false :=
  ⟨rfl, rfl, rfl, (c10_no_tty_frame {} envPlain rfl rfl rfl).2.2.2⟩
